import Mathlib

/-!
Verification development for the CDC (change-data-capture) snapshot pipeline.

The repository has two source files:
- glue.py: a Spark/Glue merge job. It reads an input batch, classifies it by
  column count (4 = CDC batch, 3 = snapshot batch, anything else raises
  ValueError), applies the CDC merge against the existing canonical snapshot,
  writes the result to a timestamped temporary prefix, copies the single
  generated part file onto the fixed canonical output key, and deletes the
  temporary objects.
- lambda_trigger.py: a Lambda handler that extracts bucket name and object key
  from an S3 event notification and starts the Glue job with those parameters.

The embedding below models dataframes as lists of rows, the object store as an
association list from keys to contents, and the dataframe engine legs that the
code delegates to (CSV part file naming) as an explicit parameter.
-/

/-! ## Data model (glue.py lines 44-57)

A snapshot row carries PersonID, FullName, City. PersonID is produced by the
Spark cast of a string column to int, which yields null on non-numeric input,
so it is an `Option Int`. A CDC row additionally carries the Op tag column.
-/

structure Row where
  PersonID : Option Int
  FullName : String
  City : String
deriving DecidableEq, Repr

structure ChangeRow where
  Op : String
  PersonID : Option Int
  FullName : String
  City : String
deriving DecidableEq, Repr

/-- Spark cast of a string column to int: null on non-numeric input.
Modelled with String.toInt? (glue.py lines 45, 49, 70). -/
def castInt (s : String) : Option Int :=
  s.toInt?

/-- Positional binding of a headerless 4-column CSV row to
(Op, PersonID, FullName, City) with the PersonID cast (glue.py lines 44-45). -/
def toChangeRow (r : List String) : ChangeRow :=
  { Op := r.getD 0 "", PersonID := castInt (r.getD 1 ""),
    FullName := r.getD 2 "", City := r.getD 3 "" }

/-- Positional binding of a headerless 3-column CSV row to
(PersonID, FullName, City) with the PersonID cast (glue.py lines 69-70). -/
def toRow3 (r : List String) : Row :=
  { PersonID := castInt (r.getD 0 ""), FullName := r.getD 1 "",
    City := r.getD 2 "" }

/-- Projection of a CDC row to a snapshot row, the
select("PersonID", "FullName", "City") of glue.py lines 55-56. -/
def dropOp (c : ChangeRow) : Row :=
  { PersonID := c.PersonID, FullName := c.FullName, City := c.City }

/-! ## CDC merge (glue.py lines 55-66) -/

/-- The Inserts partition: rows with Op = "I" (glue.py line 55). -/
def inserts (cdc : List ChangeRow) : List Row :=
  (cdc.filter (fun c => c.Op == "I")).map dropOp

/-- The Updates partition: rows with Op = "U" (glue.py line 56). -/
def updates (cdc : List ChangeRow) : List Row :=
  (cdc.filter (fun c => c.Op == "U")).map dropOp

/-- The Deletes partition, projected to PersonID only (glue.py line 57). -/
def deletes (cdc : List ChangeRow) : List (Option Int) :=
  (cdc.filter (fun c => c.Op == "D")).map (fun c => c.PersonID)

/-- The PersonID column of the Updates partition, the
updates.select("PersonID") of glue.py line 63. -/
def updKeys (cdc : List ChangeRow) : List (Option Int) :=
  (updates cdc).map (fun r => r.PersonID)

/-- The PersonID column of the Inserts partition (used only in statements). -/
def insKeys (cdc : List ChangeRow) : List (Option Int) :=
  (inserts cdc).map (fun r => r.PersonID)

/-- SQL equality on the nullable join key: a null PersonID never matches
anything, matching the Spark join-on-column semantics used by the two
left_anti joins of glue.py lines 62-63. -/
def keyMatch : Option Int → Option Int → Bool
  | some a, some b => a == b
  | _, _ => false

/-- Spark left_anti join on PersonID: keep the rows of the left side whose key
matches no key on the right side (glue.py lines 62-63). -/
def antiJoin (l : List Row) (ks : List (Option Int)) : List Row :=
  l.filter (fun r => !(ks.any (fun k => keyMatch r.PersonID k)))

/-- The `current` dataframe of glue.py lines 61-64: the existing snapshot with
the Deletes keys anti-joined away, then the Updates keys anti-joined away. -/
def currentOf (existing : List Row) (cdc : List ChangeRow) : List Row :=
  antiJoin (antiJoin existing (deletes cdc)) (updKeys cdc)

/-- The merged snapshot of glue.py line 66:
current.unionByName(inserts).unionByName(updates). Spark union is list
concatenation (no deduplication). -/
def cdcMerge (existing : List Row) (cdc : List ChangeRow) : List Row :=
  currentOf existing cdc ++ inserts cdc ++ updates cdc

/-! ## Concrete data for the worked example of the spec -/

def demoPrior : List Row :=
  [{ PersonID := some 1, FullName := "Alice", City := "NYC" },
   { PersonID := some 2, FullName := "Bob", City := "LA" }]

def demoCdc : List ChangeRow :=
  [{ Op := "I", PersonID := some 3, FullName := "Carl", City := "SF" },
   { Op := "D", PersonID := some 2, FullName := "-", City := "-" }]

def demoNew : List Row :=
  [{ PersonID := some 1, FullName := "Alice", City := "NYC" },
   { PersonID := some 3, FullName := "Carl", City := "SF" }]

/-- Spec-side reading of "PersonID is in the key set ks": the id is non-null
and occurs in ks. The spec states that set operations never match a null key
(spec section 4.2 Step A). -/
def inKeys (p : Option Int) (ks : List (Option Int)) : Prop :=
  ∃ x : Int, p = some x ∧ some x ∈ ks

/-! ## Object store model

The S3 bucket is an association list from object keys to object contents;
a lookup returns the first binding for the key. Keys are strings; the
path-to-prefix string surgery of glue.py lines 82 and 98 (stripping the
s3://bucket/ part) is elided by working directly with in-bucket keys.
-/

abbrev S3 := List (String × String)

/-- Content stored at a key, if any. -/
def s3Get (s : S3) (k : String) : Option String :=
  (s.find? (fun p => p.1 == k)).map (fun p => p.2)

/-- Store content at a key, replacing any previous binding (the copy of
glue.py line 88 overwrites the destination key). -/
def s3Put (s : S3) (k v : String) : S3 :=
  (k, v) :: s.filter (fun p => !(p.1 == k))

/-- Character-list test that pat is a leading segment of cs. -/
def isPrefixL : List Char → List Char → Bool
  | [], _ => true
  | _ :: _, [] => false
  | a :: as, b :: bs => a == b && isPrefixL as bs

/-- Key k lies under key pref (boto3 objects.filter(Prefix=...) of glue.py
line 84 and list_objects_v2(Prefix=...) of line 99). -/
def underPref (pref k : String) : Bool :=
  isPrefixL pref.data k.data

/-- Character-list test that pat occurs as a contiguous segment of cs. -/
def hasSubList (pat : List Char) : List Char → Bool
  | [] => pat.isEmpty
  | c :: rest => isPrefixL pat (c :: rest) || hasSubList pat rest

/-- The part-file test re.match(r".*slashpart-.*csv-dollar", key) of glue.py
line 85: the key ends in ".csv" and contains "/part-" before that suffix.
Python dot does not match a newline; object keys are assumed newline-free. -/
def matchesPart (k : String) : Bool :=
  isPrefixL ".csv".data.reverse k.data.reverse &&
    hasSubList "/part-".data (k.data.take (k.data.length - 4))

/-! ## Paths (glue.py lines 23-27) -/

def basePref : String := "des_file"

/-- The fixed canonical output key, glue.py line 27. -/
def finalOutputKey : String := basePref ++ "/final_output.csv"

/-- The per-run temporary output prefix, glue.py line 26, namespaced by the
run timestamp string. -/
def tempPref (ts : String) : String :=
  basePref ++ "/temp_output_" ++ ts ++ "/"

/-! ## CSV serialization of the snapshot

The canonical output is CSV with a header row (written at glue.py line 75,
read back with header at line 48). Quoting and escaping are not modelled:
the values of this pipeline contain no commas, quotes or newlines.
-/

/-- Spark renders a null int column as an empty CSV field. -/
def showKey : Option Int → String
  | none => ""
  | some n => toString n

/-- One CSV data line for a snapshot row. -/
def rowLine (r : Row) : String :=
  showKey r.PersonID ++ "," ++ r.FullName ++ "," ++ r.City

/-- The single part file content: header row then one line per row. -/
def serializeSnapshot (snap : List Row) : String :=
  (snap.map (fun r => "\n" ++ rowLine r)).foldl (fun a b => a ++ b)
    "PersonID,FullName,City"

/-- Parse one CSV data line back into a snapshot row, with the PersonID cast
of glue.py line 49. -/
def parseLine (line : String) : Row :=
  let fs := line.splitOn ","
  { PersonID := castInt (fs.getD 0 ""), FullName := fs.getD 1 "",
    City := fs.getD 2 "" }

/-- Read the canonical snapshot CSV with header (glue.py lines 48-50): drop
the header line, parse the remaining non-empty lines. -/
def parseSnapshot (content : String) : List Row :=
  match (content.splitOn "\n").filter (fun l => !(l == "")) with
  | [] => []
  | _ :: dataLines => dataLines.map parseLine

/-! ## The merge job (glue.py lines 29-111) -/

/-- The one error the job raises itself: the ValueError of glue.py line 38 on
a column count other than 3 or 4 (the UnexpectedSchema error of the spec). -/
inductive JobError where
  | UnexpectedSchema (n : Nat) : JobError
deriving DecidableEq, Repr

/-- The existing canonical snapshot (glue.py lines 47-53): read the canonical
key if present; the except branch of the missing key yields the empty
dataframe with the snapshot schema. -/
def loadExistingSnapshot (store : S3) : List Row :=
  match s3Get store finalOutputKey with
  | some content => parseSnapshot content
  | none => []

/-- Steps 2 and 3 of glue.py: classify the batch by column count and compute
the dataframe to be written. The input batch is the dataframe schema width
ncols together with its rows. -/
def computeSnapshot (store : S3) (ncols : Nat) (rows : List (List String)) :
    Except JobError (List Row) :=
  if ncols = 4 then
    Except.ok (cdcMerge (loadExistingSnapshot store) (rows.map toChangeRow))
  else if ncols = 3 then
    Except.ok (rows.map toRow3)
  else
    Except.error (JobError.UnexpectedSchema ncols)

/-- Step 5 of glue.py (move_part_to_final, lines 79-93): scan the objects
under the temporary prefix in listing order; copy the first one whose key
matches the part pattern onto the final key and report success; when none
matches, log an error and leave the store unchanged (the function returns
normally either way). -/
def movePartToFinal (s : S3) (pref finalKey : String) : S3 × Bool :=
  match (s.filter (fun p => underPref pref p.1)).find?
      (fun p => matchesPart p.1) with
  | some p => (s3Put s finalKey p.2, true)
  | none => (s, false)

/-- Step 6 of glue.py (cleanup_temp_folder, lines 96-108): delete every
object under the temporary prefix; zero objects is tolerated. -/
def cleanupTempFolder (s : S3) (pref : String) : S3 :=
  s.filter (fun p => !(underPref pref p.1))

/-- Outcome of one job run over the modelled store. committed records whether
control reached job.commit() at glue.py line 111; promoted whether the part
file copy of line 88 happened; promoErrLogged whether the no-part-file error
log of line 91 fired. -/
structure RunResult where
  store : S3
  outcome : Except JobError Unit
  committed : Bool
  promoted : Bool
  promoErrLogged : Bool
deriving Repr

/-- One whole run of the merge job over the store. The dataframe engine
chooses the names (and renders the content) of the files materialized under
the temporary prefix by the write of glue.py line 75, so that write is the
parameter eng from the computed snapshot to the produced files, given as
key-relative-to-the-temporary-prefix paired with content. The overwrite mode
first clears the temporary prefix. A ValueError from classification aborts
the run before any write. -/
def runJob (store : S3) (ncols : Nat) (rows : List (List String))
    (ts : String) (eng : List Row → List (String × String)) : RunResult :=
  match computeSnapshot store ncols rows with
  | Except.error e =>
      { store := store, outcome := Except.error e, committed := false,
        promoted := false, promoErrLogged := false }
  | Except.ok snap =>
      let tp := tempPref ts
      let store1 := store.filter (fun p => !(underPref tp p.1)) ++
        (eng snap).map (fun f => (tp ++ f.1, f.2))
      let res := movePartToFinal store1 tp finalOutputKey
      let store3 := cleanupTempFolder res.1 tp
      { store := store3, outcome := Except.ok (), committed := true,
        promoted := res.2, promoErrLogged := !res.2 }

/-- The ordinary engine behaviour: repartition(1) produces one part file
holding the serialized snapshot. -/
def normalEngine (snap : List Row) : List (String × String) :=
  [("part-00000.csv", serializeSnapshot snap)]

/-! ## Trigger adapter (lambda_trigger.py)

The S3 event notification is a nested dictionary; every field access of
lambda_trigger.py lines 9-10 can raise KeyError (or IndexError on an empty
Records list), which is the MalformedEvent failure of the spec. Each level
is therefore an Option.
-/

structure BucketField where
  name : Option String
deriving Repr

structure ObjectField where
  key : Option String
deriving Repr

structure S3Field where
  bucket : Option BucketField
  obj : Option ObjectField
deriving Repr

structure EventRecord where
  s3 : Option S3Field
deriving Repr

structure S3Event where
  records : Option (List EventRecord)
deriving Repr

/-- The field extraction of lambda_trigger.py lines 9-10, in source order:
Records, first record, s3, bucket, name, object, key. A missing field makes
the whole extraction fail. -/
def eventFields (e : S3Event) : Option (String × String) := do
  let recs ← e.records
  let r ← recs.head?
  let s ← r.s3
  let b ← s.bucket
  let bn ← b.name
  let o ← s.obj
  let k ← o.key
  pure (bn, k)

/-- Hex digit value for percent decoding. -/
def hexDigit (c : Char) : Option Nat :=
  if c.isDigit then some (c.toNat - 48)
  else if c.toNat ≥ 65 ∧ c.toNat ≤ 70 then some (c.toNat - 55)
  else if c.toNat ≥ 97 ∧ c.toNat ≤ 102 then some (c.toNat - 87)
  else none

/-- urllib.parse.unquote_plus on characters: plus becomes space, a valid
percent escape becomes its byte, an invalid escape is kept verbatim.
Multi-byte UTF-8 escape sequences are decoded bytewise rather than
recombined; the claims do not depend on that refinement. -/
def unquotePlusAux : List Char → List Char
  | [] => []
  | '%' :: a :: b :: rest =>
    match hexDigit a, hexDigit b with
    | some hi, some lo => Char.ofNat (16 * hi + lo) :: unquotePlusAux rest
    | _, _ => '%' :: unquotePlusAux (a :: b :: rest)
  | '+' :: rest => ' ' :: unquotePlusAux rest
  | c :: rest => c :: unquotePlusAux rest

def unquotePlus (s : String) : String :=
  String.mk (unquotePlusAux s.data)

/-- The MalformedEvent failure of the trigger adapter. -/
inductive TriggerError where
  | MalformedEvent : TriggerError
deriving DecidableEq, Repr

/-- One glue.start_job_run call (lambda_trigger.py lines 14-21). -/
structure JobDispatch where
  jobName : String
  dstBucketName : String
  fileName : String
deriving DecidableEq, Repr

/-- The 200 response body of lambda_trigger.py lines 34-42. -/
structure TriggerResponse where
  statusCode : Nat
  message : String
  bucket : String
  file : String
  jobRunId : String
deriving DecidableEq, Repr

/-- lambda_handler of lambda_trigger.py lines 5-42. Returns the response (or
the MalformedEvent failure) together with the list of start_job_run calls it
performed; the opaque JobRunId of the dispatch response is the parameter
glueJobRunId. Field extraction precedes the dispatch call, so a malformed
event dispatches nothing. -/
def lambda_handler (e : S3Event) (glueJobRunId : String) :
    Except TriggerError TriggerResponse × List JobDispatch :=
  match eventFields e with
  | none => (Except.error TriggerError.MalformedEvent, [])
  | some (bn, rawKey) =>
      let objectKey := unquotePlus rawKey
      let fileName := ((objectKey.splitOn "/").getLast?).getD ""
      (Except.ok { statusCode := 200,
                   message := "Glue job triggered successfully",
                   bucket := bn, file := fileName,
                   jobRunId := glueJobRunId },
       [{ jobName := "consolidate-employee-data-lewis",
          dstBucketName := bn, fileName := fileName }])

/-! ## Further concrete inputs used by counterexamples and witnesses -/

/-- Op tags the partition filters of glue.py lines 55-57 recognise. -/
def knownOp (c : ChangeRow) : Bool :=
  c.Op == "I" || c.Op == "U" || c.Op == "D"

def c2Prior : List Row :=
  [{ PersonID := some 1, FullName := "Alice", City := "NYC" }]

def c2Batch : List ChangeRow :=
  [{ Op := "I", PersonID := some 1, FullName := "Carl", City := "SF" }]

def c2AmBatch : List ChangeRow :=
  [{ Op := "U", PersonID := some 1, FullName := "Bobby", City := "SF" },
   { Op := "I", PersonID := some 3, FullName := "Carl", City := "SF" }]

def c9Prior : List Row :=
  [{ PersonID := some 2, FullName := "Bob", City := "LA" }]

def c9U : ChangeRow :=
  { Op := "U", PersonID := some 2, FullName := "Bobby", City := "SF" }

def c9D : ChangeRow :=
  { Op := "D", PersonID := some 2, FullName := "-", City := "-" }

def c9Batch : List ChangeRow := [c9D, c9U]

/-! ## Helper lemmas about the merge -/

theorem keyMatch_iff (p k : Option Int) :
    keyMatch p k = true ↔ ∃ x : Int, p = some x ∧ k = some x := by
  cases p with
  | none => simp [keyMatch]
  | some a =>
    cases k with
    | none => simp [keyMatch]
    | some b =>
      simp only [keyMatch, beq_iff_eq]
      constructor
      · rintro rfl
        exact ⟨a, rfl, rfl⟩
      · rintro ⟨x, hx, hk⟩
        cases hx
        exact (Option.some.inj hk).symm

theorem any_keyMatch (p : Option Int) (ks : List (Option Int)) :
    (ks.any (fun k => keyMatch p k) = true) ↔ inKeys p ks := by
  rw [List.any_eq_true]
  constructor
  · rintro ⟨k, hk, hm⟩
    obtain ⟨x, hp, rfl⟩ := (keyMatch_iff p k).mp hm
    exact ⟨x, hp, hk⟩
  · rintro ⟨x, hp, hx⟩
    exact ⟨some x, hx, (keyMatch_iff p (some x)).mpr ⟨x, hp, rfl⟩⟩

theorem mem_antiJoin (r : Row) (l : List Row) (ks : List (Option Int)) :
    r ∈ antiJoin l ks ↔ r ∈ l ∧ ¬ inKeys r.PersonID ks := by
  rw [antiJoin, List.mem_filter, Bool.not_eq_true', ← Bool.not_eq_true,
    any_keyMatch]

theorem mem_cdcMerge (r : Row) (existing : List Row) (cdc : List ChangeRow) :
    r ∈ cdcMerge existing cdc ↔
      (r ∈ existing ∧ ¬ inKeys r.PersonID (deletes cdc) ∧
        ¬ inKeys r.PersonID (updKeys cdc)) ∨
      r ∈ inserts cdc ∨ r ∈ updates cdc := by
  rw [cdcMerge, List.mem_append, List.mem_append, currentOf, mem_antiJoin,
    mem_antiJoin, and_assoc, or_assoc]

/-! ## Claim C1 -/

/-- C1: for every CDC batch whose Insert, Update and Delete key sets are
pairwise disjoint and internally duplicate-free, the merge computes the new
snapshot as (prior snapshot minus rows whose PersonID is in Deletes, minus
rows whose PersonID is in Updates) union Inserts union Updates; and on the
worked example of the spec (prior Alice/Bob, insert Carl, delete Bob) the
new snapshot is Alice and Carl. -/
theorem c1_cdc_merge_formula (existing : List Row) (cdc : List ChangeRow)
    (hI : (insKeys cdc).Nodup) (hU : (updKeys cdc).Nodup)
    (hD : (deletes cdc).Nodup)
    (hIU : ∀ k ∈ insKeys cdc, k ∉ updKeys cdc)
    (hID : ∀ k ∈ insKeys cdc, k ∉ deletes cdc)
    (hUD : ∀ k ∈ updKeys cdc, k ∉ deletes cdc) :
    (∀ r : Row, r ∈ cdcMerge existing cdc ↔
      (r ∈ existing ∧ ¬ inKeys r.PersonID (deletes cdc) ∧
        ¬ inKeys r.PersonID (updKeys cdc)) ∨
      r ∈ inserts cdc ∨ r ∈ updates cdc) ∧
    cdcMerge demoPrior demoCdc = demoNew :=
  ⟨fun r => mem_cdcMerge r existing cdc, by decide⟩

/-- Witness for C1 at the worked example of the spec. -/
theorem c1_cdc_merge_formula_witness :
    ((insKeys demoCdc).Nodup ∧ (updKeys demoCdc).Nodup ∧
      (deletes demoCdc).Nodup ∧
      (∀ k ∈ insKeys demoCdc, k ∉ updKeys demoCdc) ∧
      (∀ k ∈ insKeys demoCdc, k ∉ deletes demoCdc) ∧
      (∀ k ∈ updKeys demoCdc, k ∉ deletes demoCdc)) ∧
    ((∀ r : Row, r ∈ cdcMerge demoPrior demoCdc ↔
      (r ∈ demoPrior ∧ ¬ inKeys r.PersonID (deletes demoCdc) ∧
        ¬ inKeys r.PersonID (updKeys demoCdc)) ∨
      r ∈ inserts demoCdc ∨ r ∈ updates demoCdc) ∧
    cdcMerge demoPrior demoCdc = demoNew) :=
  ⟨⟨by decide, by decide, by decide, by decide, by decide, by decide⟩,
   c1_cdc_merge_formula demoPrior demoCdc (by decide) (by decide) (by decide)
     (by decide) (by decide) (by decide)⟩

/-! ## Claim C2 -/

/-- C2 counterexample: the claim states that no PersonID, including one that
appears both in the prior snapshot and in Inserts, occurs in more than one
row of the new snapshot. With prior snapshot containing PersonID 1 and a CDC
batch inserting PersonID 1, the merged snapshot carries PersonID 1 twice:
the Insert partition is unioned in without any anti-join against the prior
snapshot (glue.py lines 61-66 anti-join only Deletes and Updates). -/
theorem c2_duplicate_key_counterexample :
    (c2Prior.map Row.PersonID).Nodup ∧
    (cdcMerge c2Prior c2Batch).map Row.PersonID = [some 1, some 1] ∧
    ¬ ((cdcMerge c2Prior c2Batch).map Row.PersonID).Nodup := by
  decide

/-- C2 amended: the key-uniqueness invariant holds provided additionally the
Insert keys do not occur in the prior snapshot, the Insert and Update key
lists are duplicate-free and disjoint from each other, and the Update keys
are non-null. -/
theorem c2_key_uniqueness_amended (prior : List Row) (cdc : List ChangeRow)
    (hp : (prior.map Row.PersonID).Nodup)
    (hI : (insKeys cdc).Nodup) (hU : (updKeys cdc).Nodup)
    (hIU : ∀ k ∈ insKeys cdc, k ∉ updKeys cdc)
    (hIP : ∀ k ∈ insKeys cdc, k ∉ prior.map Row.PersonID)
    (hUsome : ∀ k ∈ updKeys cdc, k ≠ none) :
    ((cdcMerge prior cdc).map Row.PersonID).Nodup := by
  have hcur_sub : ((currentOf prior cdc).map Row.PersonID).Sublist
      (prior.map Row.PersonID) := by
    apply List.Sublist.map
    simp only [currentOf, antiJoin]
    exact (List.filter_sublist _).trans (List.filter_sublist _)
  have hcurNodup : ((currentOf prior cdc).map Row.PersonID).Nodup :=
    List.Nodup.sublist hcur_sub hp
  have hcur_mem : ∀ k ∈ (currentOf prior cdc).map Row.PersonID,
      k ∈ prior.map Row.PersonID := fun k hk => hcur_sub.subset hk
  have hcur_notUpd : ∀ k ∈ (currentOf prior cdc).map Row.PersonID,
      k ∉ updKeys cdc := by
    intro k hk hku
    obtain ⟨r, hr, rfl⟩ := List.mem_map.mp hk
    rw [currentOf] at hr
    have h2 := (mem_antiJoin r _ _).mp hr
    apply h2.2
    obtain ⟨x, hx⟩ := Option.ne_none_iff_exists'.mp (hUsome _ hku)
    exact ⟨x, hx, hx ▸ hku⟩
  rw [cdcMerge, List.map_append, List.map_append, List.nodup_append,
    List.nodup_append]
  refine ⟨⟨hcurNodup, hI, ?_⟩, hU, ?_⟩
  · intro a ha hb
    exact hIP a hb (hcur_mem a ha)
  · rw [List.disjoint_append_left]
    exact ⟨fun a ha hc => hcur_notUpd a ha hc, fun a hb hc => hIU a hb hc⟩

/-- Witness for the amended C2: prior Alice(1), batch updates 1 and inserts
3; the result keys are pairwise distinct. -/
theorem c2_key_uniqueness_amended_witness :
    ((c2Prior.map Row.PersonID).Nodup ∧
      (insKeys c2AmBatch).Nodup ∧ (updKeys c2AmBatch).Nodup ∧
      (∀ k ∈ insKeys c2AmBatch, k ∉ updKeys c2AmBatch) ∧
      (∀ k ∈ insKeys c2AmBatch, k ∉ c2Prior.map Row.PersonID) ∧
      (∀ k ∈ updKeys c2AmBatch, k ≠ none)) ∧
    ((cdcMerge c2Prior c2AmBatch).map Row.PersonID).Nodup :=
  ⟨⟨by decide, by decide, by decide, by decide, by decide, by decide⟩,
   c2_key_uniqueness_amended c2Prior c2AmBatch (by decide) (by decide)
     (by decide) (by decide) (by decide) (by decide)⟩

/-! ## Claim C9 -/

/-- C9: when the same PersonID appears both in a Delete row and in an Update
row of one CDC batch, the merged snapshot contains the Update row: both
anti-joins remove the prior row with that key, and the Update partition is
unioned back afterwards. The batch is quantified as a list, so the result
does not depend on the order of its rows. -/
theorem c9_update_wins (existing : List Row) (cdc : List ChangeRow)
    (u d : ChangeRow) (hu : u ∈ cdc) (huOp : u.Op = "U")
    (hd : d ∈ cdc) (hdOp : d.Op = "D") (hk : d.PersonID = u.PersonID) :
    dropOp u ∈ cdcMerge existing cdc ∧
    ∀ r ∈ existing, keyMatch r.PersonID u.PersonID = true →
      r ∉ currentOf existing cdc := by
  have humem : dropOp u ∈ updates cdc :=
    List.mem_map_of_mem dropOp (List.mem_filter.mpr ⟨hu, by simp [huOp]⟩)
  constructor
  · exact (mem_cdcMerge _ _ _).mpr (Or.inr (Or.inr humem))
  · intro r hr hmatch hrc
    rw [currentOf] at hrc
    have h2 := (mem_antiJoin r _ _).mp hrc
    apply h2.2
    obtain ⟨x, hpx, hux⟩ := (keyMatch_iff _ _).mp hmatch
    have humk : u.PersonID ∈ updKeys cdc := by
      rw [updKeys]
      exact List.mem_map_of_mem (fun r => r.PersonID) humem
    exact ⟨x, hpx, hux ▸ humk⟩

/-- Witness for C9: prior Bob(2), batch deletes 2 then updates 2; the update
row is in the merged snapshot and no prior row with key 2 survives. -/
theorem c9_update_wins_witness :
    (c9U ∈ c9Batch ∧ c9U.Op = "U" ∧ c9D ∈ c9Batch ∧ c9D.Op = "D" ∧
      c9D.PersonID = c9U.PersonID) ∧
    (dropOp c9U ∈ cdcMerge c9Prior c9Batch ∧
      ∀ r ∈ c9Prior, keyMatch r.PersonID c9U.PersonID = true →
        r ∉ currentOf c9Prior c9Batch) :=
  ⟨⟨by decide, rfl, by decide, rfl, rfl⟩,
   c9_update_wins c9Prior c9Batch c9U c9D (by decide) rfl (by decide) rfl
     rfl⟩

/-! ## Claim C10 -/

/-- C10: rows whose Op tag is not exactly I, U or D land in none of the three
partitions and contribute nothing to the merged snapshot; the filters of
glue.py lines 55-57 silently drop them and no error is raised (the merge is
a total function of the batch). -/
theorem c10_unknown_op_discarded (existing : List Row)
    (cdc : List ChangeRow) :
    inserts (cdc.filter (fun c => !(knownOp c))) = [] ∧
    updates (cdc.filter (fun c => !(knownOp c))) = [] ∧
    deletes (cdc.filter (fun c => !(knownOp c))) = [] ∧
    cdcMerge existing (cdc.filter knownOp) = cdcMerge existing cdc := by
  have h1 : (cdc.filter (fun c => !(knownOp c))).filter
      (fun c => c.Op == "I") = [] := by
    rw [List.filter_filter]
    refine List.filter_eq_nil_iff.mpr (fun c _ => ?_)
    cases h : c.Op == "I" <;> simp [knownOp, h]
  have h2 : (cdc.filter (fun c => !(knownOp c))).filter
      (fun c => c.Op == "U") = [] := by
    rw [List.filter_filter]
    refine List.filter_eq_nil_iff.mpr (fun c _ => ?_)
    cases h : c.Op == "U" <;> simp [knownOp, h]
  have h3 : (cdc.filter (fun c => !(knownOp c))).filter
      (fun c => c.Op == "D") = [] := by
    rw [List.filter_filter]
    refine List.filter_eq_nil_iff.mpr (fun c _ => ?_)
    cases h : c.Op == "D" <;> simp [knownOp, h]
  have hins : inserts (cdc.filter knownOp) = inserts cdc := by
    rw [inserts, inserts, List.filter_filter]
    congr 1
    refine List.filter_congr (fun c _ => ?_)
    cases h : c.Op == "I" <;> simp [knownOp, h]
  have hupd : updates (cdc.filter knownOp) = updates cdc := by
    rw [updates, updates, List.filter_filter]
    congr 1
    refine List.filter_congr (fun c _ => ?_)
    cases h : c.Op == "U" <;> simp [knownOp, h]
  have hdel : deletes (cdc.filter knownOp) = deletes cdc := by
    rw [deletes, deletes, List.filter_filter]
    congr 1
    refine List.filter_congr (fun c _ => ?_)
    cases h : c.Op == "D" <;> simp [knownOp, h]
  exact ⟨by rw [inserts, h1]; rfl, by rw [updates, h2]; rfl,
    by rw [deletes, h3]; rfl,
    by rw [cdcMerge, cdcMerge, currentOf, currentOf, updKeys, updKeys,
      hins, hupd, hdel]⟩

/-! ## Claim C6 -/

/-- C6: when the canonical snapshot key is absent (first run), the CDC merge
runs against the empty prior snapshot, so the computed snapshot is exactly
Inserts followed by Updates and the Deletes have no effect. -/
theorem c6_first_run (store : S3) (rows : List (List String))
    (h : s3Get store finalOutputKey = none) :
    computeSnapshot store 4 rows = Except.ok
      (inserts (rows.map toChangeRow) ++ updates (rows.map toChangeRow)) := by
  simp [computeSnapshot, loadExistingSnapshot, h, cdcMerge, currentOf,
    antiJoin]

/-- Witness for C6 on the empty store and the worked-example batch. -/
theorem c6_first_run_witness :
    s3Get ([] : S3) finalOutputKey = none ∧
    computeSnapshot [] 4 [["I", "3", "Carl", "SF"], ["D", "2", "-", "-"]] =
      Except.ok
        (inserts ([["I", "3", "Carl", "SF"],
            ["D", "2", "-", "-"]].map toChangeRow) ++
         updates ([["I", "3", "Carl", "SF"],
            ["D", "2", "-", "-"]].map toChangeRow)) :=
  ⟨rfl, c6_first_run [] [["I", "3", "Carl", "SF"], ["D", "2", "-", "-"]] rfl⟩

/-! ## Claim C7 -/

/-- C7: a 3-column batch is the new snapshot verbatim, with columns bound
positionally to (PersonID, FullName, City) and PersonID cast to integer; the
result does not depend on the store, so no join against the prior canonical
snapshot happens (glue.py lines 68-70). -/
theorem c7_snapshot_identity (store : S3) (rows : List (List String)) :
    computeSnapshot store 3 rows = Except.ok (rows.map toRow3) ∧
    computeSnapshot store 3 rows = computeSnapshot [] 3 rows :=
  ⟨rfl, rfl⟩

/-! ## Claim C8 -/

/-- C8: a malformed trigger payload, one where the chain of field accesses
Records, first record, s3, bucket, name, object, key does not go through,
makes the handler fail with MalformedEvent and dispatch no job run
(lambda_trigger.py lines 9-21: extraction precedes start_job_run). -/
theorem c8_malformed_event (e : S3Event) (rid : String)
    (h : eventFields e = none) :
    lambda_handler e rid = (Except.error TriggerError.MalformedEvent, []) := by
  rw [lambda_handler, h]

/-- Witness for C8: the event with no Records field. -/
theorem c8_malformed_event_witness :
    eventFields { records := none } = none ∧
    lambda_handler { records := none } "jr-1" =
      (Except.error TriggerError.MalformedEvent, []) :=
  ⟨rfl, c8_malformed_event { records := none } "jr-1" rfl⟩

/-! ## Helper lemmas about the store -/

theorem s3Get_cons (a : String × String) (t : S3) (k : String) :
    s3Get (a :: t) k = if (a.1 == k) = true then some a.2 else s3Get t k := by
  cases hak : (a.1 == k) <;> simp [s3Get, List.find?_cons, hak]

theorem s3Get_filter (l : S3) (k : String) (pr : String × String → Bool)
    (h : ∀ p : String × String, p.1 = k → pr p = true) :
    s3Get (l.filter pr) k = s3Get l k := by
  induction l with
  | nil => rfl
  | cons a t ih =>
    rw [List.filter_cons]
    by_cases hpa : pr a = true
    · rw [if_pos hpa, s3Get_cons, s3Get_cons]
      by_cases hak : (a.1 == k) = true
      · rw [if_pos hak, if_pos hak]
      · rw [if_neg hak, if_neg hak, ih]
    · have hak : (a.1 == k) = false := by
        rcases Bool.eq_false_or_eq_true (a.1 == k) with hb | hb
        · exact absurd (h a (by simpa using hb)) hpa
        · exact hb
      rw [if_neg hpa, ih, s3Get_cons, if_neg (by simp [hak])]

theorem s3Get_eq_none (l : S3) (k : String) (h : ∀ p ∈ l, p.1 ≠ k) :
    s3Get l k = none := by
  rw [s3Get, List.find?_eq_none.mpr, Option.map_none']
  intro p hp
  simp [h p hp]

theorem s3Get_append_right_none (a b : S3) (k : String)
    (h : s3Get b k = none) : s3Get (a ++ b) k = s3Get a k := by
  induction a with
  | nil => simpa using h
  | cons x t ih => rw [List.cons_append, s3Get_cons, s3Get_cons, ih]

theorem isPrefixL_append (l m : List Char) : isPrefixL l (l ++ m) = true := by
  induction l with
  | nil => rfl
  | cons c t ih => simp [isPrefixL, ih]

theorem tempPref_data (ts : String) :
    (tempPref ts).data =
      "des_file/temp_output_".data ++ (ts.data ++ "/".data) := by
  simp [tempPref, basePref, String.data_append, List.append_assoc]

/-- The canonical output key never lies under a temporary prefix: the two
keys differ at the tenth character, whatever the timestamp is. -/
theorem final_not_under_temp (ts : String) :
    underPref (tempPref ts) finalOutputKey = false := rfl

/-- Keys materialized under a temporary prefix are distinct from the
canonical output key. -/
theorem tempKey_ne_finalKey (ts name : String) :
    tempPref ts ++ name ≠ finalOutputKey := by
  intro h
  have hu : underPref (tempPref ts) (tempPref ts ++ name) = true := by
    rw [underPref, String.data_append]
    exact isPrefixL_append _ _
  rw [h, final_not_under_temp] at hu
  exact Bool.false_ne_true hu

/-- Keys materialized under a temporary prefix do lie under it. -/
theorem tempKey_under_temp (ts name : String) :
    underPref (tempPref ts) (tempPref ts ++ name) = true := by
  rw [underPref, String.data_append]
  exact isPrefixL_append _ _

/-- When every file the engine materialized under the temporary prefix fails
the part pattern, the promotion scan of move_part_to_final finds nothing and
leaves the store untouched, reporting the miss. -/
theorem movePart_not_found (store : S3) (ts fk : String)
    (files : List (String × String))
    (h : ∀ f ∈ files, matchesPart (tempPref ts ++ f.1) = false) :
    movePartToFinal
      (store.filter (fun p => !(underPref (tempPref ts) p.1)) ++
        files.map (fun f => (tempPref ts ++ f.1, f.2))) (tempPref ts) fk =
      (store.filter (fun p => !(underPref (tempPref ts) p.1)) ++
        files.map (fun f => (tempPref ts ++ f.1, f.2)), false) := by
  rw [movePartToFinal]
  have hfind : (((store.filter (fun p => !(underPref (tempPref ts) p.1)) ++
      files.map (fun f => (tempPref ts ++ f.1, f.2))).filter
        (fun p => underPref (tempPref ts) p.1)).find?
        (fun p => matchesPart p.1)) = none := by
    apply List.find?_eq_none.mpr
    intro p hp
    have hp1 := (List.mem_filter.mp hp).1
    rcases List.mem_append.mp hp1 with hl | hr
    · have h2 := (List.mem_filter.mp hp).2
      have h3 := (List.mem_filter.mp hl).2
      simp [h2] at h3
    · obtain ⟨f, hf, rfl⟩ := List.mem_map.mp hr
      simp [h f hf]
  rw [hfind]

/-! ## Claim C3 -/

/-- C3 counterexample: the claim states that a run in which no object under
the temporary prefix matches the part pattern fails with a PromotionFailed
error and aborts before cleanup and commit. In the modelled run below the
engine materializes no file at all, so the scan finds no part file, yet the
job logs the miss and still reaches cleanup and job.commit(): glue.py line 91
only logs, move_part_to_final returns normally, and lines 108 and 111 run. -/
theorem c3_no_abort_counterexample :
    (runJob [] 3 [["1", "Alice", "NYC"]] "20250101_000000"
        (fun _ => [])).promoErrLogged = true ∧
    (runJob [] 3 [["1", "Alice", "NYC"]] "20250101_000000"
        (fun _ => [])).promoted = false ∧
    (runJob [] 3 [["1", "Alice", "NYC"]] "20250101_000000"
        (fun _ => [])).committed = true ∧
    (runJob [] 3 [["1", "Alice", "NYC"]] "20250101_000000"
        (fun _ => [])).outcome = Except.ok () :=
  ⟨rfl, rfl, rfl, rfl⟩

/-- C3 amended: when no object under the temporary prefix matches the part
pattern, the job logs the no-part-file error and performs no copy, but it
does not abort: it proceeds to cleanup and commits successfully. -/
theorem c3_promotion_miss_amended (store : S3) (ncols : Nat)
    (rows : List (List String)) (ts : String)
    (eng : List Row → List (String × String)) (snap : List Row)
    (hok : computeSnapshot store ncols rows = Except.ok snap)
    (hmiss : ∀ f ∈ eng snap, matchesPart (tempPref ts ++ f.1) = false) :
    (runJob store ncols rows ts eng).outcome = Except.ok () ∧
    (runJob store ncols rows ts eng).committed = true ∧
    (runJob store ncols rows ts eng).promoted = false ∧
    (runJob store ncols rows ts eng).promoErrLogged = true := by
  simp only [runJob, hok]
  rw [movePart_not_found store ts finalOutputKey (eng snap) hmiss]
  simp

/-- Witness for the amended C3. -/
theorem c3_promotion_miss_amended_witness :
    (computeSnapshot [] 3 [["1", "Alice", "NYC"]] =
      Except.ok ([["1", "Alice", "NYC"]].map toRow3)) ∧
    (∀ f ∈ ([] : List (String × String)),
      matchesPart (tempPref "20250101_000000" ++ f.1) = false) ∧
    ((runJob [] 3 [["1", "Alice", "NYC"]] "20250101_000000"
        (fun _ => [])).outcome = Except.ok () ∧
      (runJob [] 3 [["1", "Alice", "NYC"]] "20250101_000000"
        (fun _ => [])).committed = true ∧
      (runJob [] 3 [["1", "Alice", "NYC"]] "20250101_000000"
        (fun _ => [])).promoted = false ∧
      (runJob [] 3 [["1", "Alice", "NYC"]] "20250101_000000"
        (fun _ => [])).promoErrLogged = true) :=
  ⟨rfl, by simp,
   c3_promotion_miss_amended [] 3 [["1", "Alice", "NYC"]] "20250101_000000"
     (fun _ => []) ([["1", "Alice", "NYC"]].map toRow3) rfl (by simp)⟩

/-! ## Claim C4 -/

/-- C4: in every run whose promotion step finds no part file (so the copy of
glue.py line 88 never happens), the content stored at the canonical output
key after the run is identical to its content before the run: the write only
touches the temporary prefix, the canonical key is never under a temporary
prefix, and cleanup only deletes keys under the temporary prefix. -/
theorem c4_promotion_atomicity (store : S3) (ncols : Nat)
    (rows : List (List String)) (ts : String)
    (eng : List Row → List (String × String)) (snap : List Row)
    (hok : computeSnapshot store ncols rows = Except.ok snap)
    (hmiss : ∀ f ∈ eng snap, matchesPart (tempPref ts ++ f.1) = false) :
    s3Get (runJob store ncols rows ts eng).store finalOutputKey =
      s3Get store finalOutputKey := by
  simp only [runJob, hok]
  rw [movePart_not_found store ts finalOutputKey (eng snap) hmiss]
  rw [cleanupTempFolder, List.filter_append]
  rw [s3Get_append_right_none _ _ _ ?hnone]
  case hnone =>
    apply s3Get_eq_none
    intro p hp
    obtain ⟨f, _, rfl⟩ := List.mem_map.mp (List.mem_filter.mp hp).1
    exact tempKey_ne_finalKey ts f.1
  rw [s3Get_filter _ _ _ ?hkeep, s3Get_filter _ _ _ ?hkeep2]
  case hkeep =>
    intro p hp
    rw [hp, final_not_under_temp]
    rfl
  case hkeep2 =>
    intro p hp
    rw [hp, final_not_under_temp]
    rfl

/-- Witness for C4: a store holding a canonical snapshot, a 3-column batch,
and an engine that materializes nothing; the canonical content is unchanged
by the run. -/
theorem c4_promotion_atomicity_witness :
    (computeSnapshot [(finalOutputKey, "PersonID,FullName,City\n7,Greg,SEA")]
        3 [["2", "Bob", "LA"]] =
      Except.ok ([["2", "Bob", "LA"]].map toRow3)) ∧
    (∀ f ∈ ([] : List (String × String)),
      matchesPart (tempPref "20250202_000000" ++ f.1) = false) ∧
    s3Get (runJob [(finalOutputKey, "PersonID,FullName,City\n7,Greg,SEA")]
        3 [["2", "Bob", "LA"]] "20250202_000000" (fun _ => [])).store
        finalOutputKey =
      s3Get [(finalOutputKey, "PersonID,FullName,City\n7,Greg,SEA")]
        finalOutputKey :=
  ⟨rfl, by simp,
   c4_promotion_atomicity
     [(finalOutputKey, "PersonID,FullName,City\n7,Greg,SEA")] 3
     [["2", "Bob", "LA"]] "20250202_000000" (fun _ => [])
     ([["2", "Bob", "LA"]].map toRow3) rfl (by simp)⟩

/-! ## Claim C5 -/

/-- C5: a batch whose column count is neither 3 nor 4 makes the job abort
with the UnexpectedSchema error (the ValueError of glue.py line 38) before
any write: the store is completely unchanged, no promotion copy happens, and
commit is never reached. -/
theorem c5_unexpected_schema (store : S3) (ncols : Nat)
    (rows : List (List String)) (ts : String)
    (eng : List Row → List (String × String))
    (h3 : ncols ≠ 3) (h4 : ncols ≠ 4) :
    (runJob store ncols rows ts eng).outcome =
      Except.error (JobError.UnexpectedSchema ncols) ∧
    (runJob store ncols rows ts eng).store = store ∧
    (runJob store ncols rows ts eng).promoted = false ∧
    (runJob store ncols rows ts eng).committed = false := by
  have hc : computeSnapshot store ncols rows =
      Except.error (JobError.UnexpectedSchema ncols) := by
    rw [computeSnapshot, if_neg h4, if_neg h3]
  simp only [runJob, hc]
  simp

/-- Witness for C5 at a 5-column batch, matching the example of the spec. -/
theorem c5_unexpected_schema_witness :
    ((5 : Nat) ≠ 3 ∧ (5 : Nat) ≠ 4) ∧
    ((runJob [] 5 [["a", "b", "c", "d", "e"]] "t5" (fun _ => [])).outcome =
        Except.error (JobError.UnexpectedSchema 5) ∧
      (runJob [] 5 [["a", "b", "c", "d", "e"]] "t5" (fun _ => [])).store =
        [] ∧
      (runJob [] 5 [["a", "b", "c", "d", "e"]] "t5"
        (fun _ => [])).promoted = false ∧
      (runJob [] 5 [["a", "b", "c", "d", "e"]] "t5"
        (fun _ => [])).committed = false) :=
  ⟨⟨by decide, by decide⟩,
   c5_unexpected_schema [] 5 [["a", "b", "c", "d", "e"]] "t5" (fun _ => [])
     (by decide) (by decide)⟩
